import Mathlib

set_option linter.unusedVariables false

/-!
Verification development for the superbob repository.

The definitions below are shallow embeddings of the Python sources:
src/superbob/cli.py (class WXOAgentTrigger and the main entry point),
src/wxo_agent_trigger_tool.py (the trigger_wxo_agent tool), and
src/scripts/bob_wxo_cli_wrapper.py (class WXOCLIWrapper).  HTTP traffic
and subprocesses are modelled by passing the reply a call would receive
as an explicit argument; functions that count network calls or
subprocess invocations return that count alongside their result.
Transport-level failures in which no HTTP reply arrives at all are not
part of the modelled reply space.
-/

/-! Python string primitives, implemented structurally so that concrete
    instances reduce inside the kernel. -/

/-- Splitting a character list at every occurrence of a separator, keeping
    empty pieces, as the Python str.split method does with an explicit
    separator.  The accumulator holds the current piece reversed. -/
def splitListOn (sep : Char) : List Char → List Char → List (List Char)
  | [], acc => [acc.reverse]
  | c :: rest, acc =>
    if c = sep then acc.reverse :: splitListOn sep rest []
    else splitListOn sep rest (c :: acc)

/-- Model of the Python expression s.split(sep) for a one-character
    separator. -/
def pySplit (s : String) (sep : Char) : List String :=
  (splitListOn sep s.toList []).map fun l => ⟨l⟩

/-- Whitespace removal from both ends of a character list. -/
def trimList (l : List Char) : List Char :=
  ((l.dropWhile Char.isWhitespace).reverse.dropWhile Char.isWhitespace).reverse

/-- Model of the Python expression s.strip(). -/
def pyStrip (s : String) : String := ⟨trimList s.toList⟩

/-- Model of the Python expression s.startswith(p). -/
def pyStartsWith (s p : String) : Bool := p.toList.isPrefixOf s.toList

/-- Digit-sequence evaluation with the underscore rule of the Python int
    grammar: after the first digit, a single underscore may separate two
    digits, while leading, trailing, or doubled underscores fail. -/
def pyDigitsAux : List Char → Nat → Option Nat
  | [], acc => some acc
  | '_' :: c :: rest, acc =>
    if c.isDigit then pyDigitsAux rest (acc * 10 + (c.toNat - '0'.toNat))
    else none
  | c :: rest, acc =>
    if c.isDigit then pyDigitsAux rest (acc * 10 + (c.toNat - '0'.toNat))
    else none

/-- Value of a digit sequence that starts with a digit and uses single
    underscores between digits only, none otherwise. -/
def pyDigits : List Char → Option Nat
  | [] => none
  | c :: rest =>
    if c.isDigit then pyDigitsAux rest (c.toNat - '0'.toNat)
    else none

/-- Model of the Python int(s) conversion: surrounding whitespace is
    stripped, an optional sign precedes the digits, and single underscores
    may separate digits; none models the ValueError raise.  Decimal digits
    are modelled as the ASCII digits, leaving out the further Unicode
    decimal digits Python accepts. -/
def pyInt (s : String) : Option Int :=
  match trimList s.toList with
  | '-' :: rest => (pyDigits rest).map fun n => -(n : Int)
  | '+' :: rest => (pyDigits rest).map fun n => (n : Int)
  | l => (pyDigits l).map fun n => (n : Int)

/-! Common model of HTTP replies and of the requests library behaviour. -/

/-- Tagged outcome variants of a Trigger Result, from the data model of
    the specification. -/
inductive TRVariant
  | Completed
  | Started
  | Failed
  | TimedOut
deriving DecidableEq

/-- An HTTP reply as the requests library presents it: status code,
    reason phrase, request url, raw text body, and the parsed JSON body
    when the text parses as JSON (none models a json() raise). -/
structure HttpResp (β : Type) where
  status : Nat
  reason : String
  url : String
  text : String
  body : Option β
deriving DecidableEq

/-- Condition under which the requests raise_for_status method raises an
    HTTPError: client-error and server-error status codes only. -/
def raisesHttpError (status : Nat) : Bool :=
  decide (400 ≤ status ∧ status < 600)

/-- String form of the HTTPError raised by raise_for_status, following
    the message format of the requests library. -/
def httpErrorStr (status : Nat) (reason url : String) : String :=
  toString status ++ (if status < 500 then " Client Error: " else " Server Error: ")
    ++ reason ++ " for url: " ++ url

/-- String form of the JSONDecodeError raised by the json() method of a
    reply whose body is not valid JSON. -/
def jsonDecodeErrorStr : String := "Expecting value: line 1 column 1 (char 0)"

/-! Model of src/superbob/cli.py, class WXOAgentTrigger. -/

namespace WXOAgentTrigger

/-- An entry of the JSON agent list returned by the agents endpoint; every
    field is read with dict.get and may be absent. -/
structure AgentEntry where
  name : Option String
  id : Option String
  description : Option String
deriving DecidableEq

/-- An agent record as reshaped by list_agents. -/
structure ListedAgent where
  name : Option String
  id : Option String
  description : String
deriving DecidableEq

/-- Result dictionary of list_agents; absent keys are none. -/
structure ListResult where
  success : Bool
  agent_count : Option Nat
  agents : Option (List ListedAgent)
  error : Option String
  status_code : Option Nat
deriving DecidableEq

/-- Model of WXOAgentTrigger.list_agents, as a function of the reply the
    agents endpoint returns. -/
def list_agents (r : HttpResp (List AgentEntry)) : ListResult :=
  if raisesHttpError r.status then
    { success := false, agent_count := none, agents := none,
      error := some (httpErrorStr r.status r.reason r.url),
      status_code := some r.status }
  else
    match r.body with
    | none =>
      { success := false, agent_count := none, agents := none,
        error := some jsonDecodeErrorStr, status_code := none }
    | some agents =>
      { success := true, agent_count := some agents.length,
        agents := some (agents.map fun a =>
          { name := a.name, id := a.id,
            description := ⟨(a.description.getD "").toList.take 100⟩ }),
        error := none, status_code := none }

/-- Exceptions that can escape the resolve step. -/
inductive ResolveFail
  | httpError (status : Nat) (reason url : String)
  | jsonError
  | keyErrorId
  | notFound (name : String)
deriving DecidableEq

/-- String form of each exception the resolve step can raise, as the str
    builtin renders it. -/
def resolveFailStr : ResolveFail → String
  | .httpError s re u => httpErrorStr s re u
  | .jsonError => jsonDecodeErrorStr
  | .keyErrorId => "\x27id\x27"
  | .notFound n => "Agent \x27" ++ n ++ "\x27 not found"

/-- Shape test guarding the fast path of the resolve step: length 36 and
    exactly four hyphen characters. -/
def uuidShaped (s : String) : Bool :=
  s.length == 36 && s.toList.count '-' == 4

/-- First entry of the agent list whose name equals the given name. -/
def findByName : List AgentEntry → String → Option AgentEntry
  | [], _ => none
  | a :: rest, n => if a.name = some n then some a else findByName rest n

/-- Model of WXOAgentTrigger._resolve_agent_id as a function of the reply
    a list fetch would return.  The second component counts the list
    fetches actually issued. -/
def resolve_agent_id (agent_name : String) (listReply : HttpResp (List AgentEntry)) :
    Except ResolveFail String × Nat :=
  if uuidShaped agent_name then (.ok agent_name, 0)
  else if raisesHttpError listReply.status then
    (.error (.httpError listReply.status listReply.reason listReply.url), 1)
  else
    match listReply.body with
    | none => (.error .jsonError, 1)
    | some agents =>
      match findByName agents agent_name with
      | some a =>
        match a.id with
        | some i => (.ok i, 1)
        | none => (.error .keyErrorId, 1)
      | none => (.error (.notFound agent_name), 1)

/-- Message object inside a choice of a completions reply. -/
structure ChoiceMsg where
  content : Option String
deriving DecidableEq

/-- One element of the choices list of a completions reply. -/
structure Choice where
  message : Option ChoiceMsg
deriving DecidableEq

/-- Parsed JSON body of a completions reply; the choices key is read with
    dict.get and may be absent. -/
structure CompletionsBody where
  choices : Option (List Choice)
deriving DecidableEq

/-- Result dictionary of _trigger_sync; absent keys are none. -/
structure SyncResult where
  success : Bool
  agent_name : String
  status : Option String
  response : Option String
  full_output : Option CompletionsBody
  error : Option String
  status_code : Option Nat
  body : Option String
deriving DecidableEq

/-- Reply-text extraction from the choices list: the empty string when the
    list is empty, otherwise the content of the first choice, raising a
    KeyError when the nested keys are absent. -/
def extractReply : List Choice → Except String String
  | [] => .ok ""
  | c :: _ =>
    match c.message with
    | none => .error "\x27message\x27"
    | some m =>
      match m.content with
      | none => .error "\x27content\x27"
      | some t => .ok t

/-- Model of WXOAgentTrigger._trigger_sync, as a function of the reply the
    completions endpoint returns. -/
def trigger_sync (agent_id agent_name user_input : String) (timeout : Int)
    (r : HttpResp CompletionsBody) : SyncResult :=
  if raisesHttpError r.status then
    { success := false, agent_name := agent_name, status := none, response := none,
      full_output := none, error := some (httpErrorStr r.status r.reason r.url),
      status_code := some r.status, body := some r.text }
  else
    match r.body with
    | none =>
      { success := false, agent_name := agent_name, status := none, response := none,
        full_output := none, error := some jsonDecodeErrorStr,
        status_code := none, body := none }
    | some data =>
      match extractReply (data.choices.getD []) with
      | .ok reply =>
        { success := true, agent_name := agent_name, status := some "completed",
          response := some reply, full_output := some data, error := none,
          status_code := none, body := none }
      | .error e =>
        { success := false, agent_name := agent_name, status := none, response := none,
          full_output := none, error := some e, status_code := none, body := none }

/-- Parsed JSON body of a runs reply; every field is read with dict.get
    and may be absent. -/
structure RunBody where
  thread_id : Option String
  run_id : Option String
  task_id : Option String
  message_id : Option String
deriving DecidableEq

/-- Result dictionary of _trigger_async; absent keys are none. -/
structure AsyncResult where
  success : Bool
  agent_name : String
  status : Option String
  thread_id : Option String
  run_id : Option String
  task_id : Option String
  message_id : Option String
  error : Option String
  status_code : Option Nat
  body : Option String
deriving DecidableEq

/-- Model of WXOAgentTrigger._trigger_async, as a function of the reply
    the runs endpoint returns. -/
def trigger_async (agent_id agent_name user_input : String)
    (r : HttpResp RunBody) : AsyncResult :=
  if raisesHttpError r.status then
    { success := false, agent_name := agent_name, status := none, thread_id := none,
      run_id := none, task_id := none, message_id := none,
      error := some (httpErrorStr r.status r.reason r.url),
      status_code := some r.status, body := some r.text }
  else
    match r.body with
    | none =>
      { success := false, agent_name := agent_name, status := none, thread_id := none,
        run_id := none, task_id := none, message_id := none,
        error := some jsonDecodeErrorStr, status_code := none, body := none }
    | some run_data =>
      { success := true, agent_name := agent_name, status := some "started",
        thread_id := run_data.thread_id, run_id := run_data.run_id,
        task_id := run_data.task_id, message_id := run_data.message_id,
        error := none, status_code := none, body := none }

/-- Result dictionary of get_run_status; absent keys are none. -/
structure StatusResult (β : Type) where
  success : Bool
  data : Option β
  error : Option String
  status_code : Option Nat
  run_id : Option String
deriving DecidableEq

/-- Model of WXOAgentTrigger.get_run_status, as a function of the reply
    the run-status endpoint returns. -/
def get_run_status {β : Type} (run_id : String) (r : HttpResp β) : StatusResult β :=
  if raisesHttpError r.status then
    { success := false, data := none, error := some (httpErrorStr r.status r.reason r.url),
      status_code := some r.status, run_id := some run_id }
  else
    match r.body with
    | none =>
      { success := false, data := none, error := some jsonDecodeErrorStr,
        status_code := none, run_id := some run_id }
    | some d =>
      { success := true, data := some d, error := none,
        status_code := none, run_id := none }

/-- Result of trigger_agent: one of the three dictionaries it can return,
    tagged by the branch that produced it. -/
inductive TriggerOut
  | resolveFail (error : String) (agent_name : String)
  | sync (r : SyncResult)
  | async (r : AsyncResult)
deriving DecidableEq

/-- Model of WXOAgentTrigger.trigger_agent, as a function of the replies
    the three endpoints would return. -/
def trigger_agent (agent_name user_input : String) (wait : Bool) (timeout : Int)
    (listReply : HttpResp (List AgentEntry)) (compReply : HttpResp CompletionsBody)
    (runReply : HttpResp RunBody) : TriggerOut :=
  match (resolve_agent_id agent_name listReply).1 with
  | .error e => .resolveFail (resolveFailStr e) agent_name
  | .ok agent_id =>
    if wait then .sync (trigger_sync agent_id agent_name user_input timeout compReply)
    else .async (trigger_async agent_id agent_name user_input runReply)

/-- Value of the success key of a trigger_agent result. -/
def TriggerOut.success : TriggerOut → Bool
  | .resolveFail _ _ => false
  | .sync r => r.success
  | .async r => r.success

/-- Value of the error key of a trigger_agent result. -/
def TriggerOut.error : TriggerOut → Option String
  | .resolveFail e _ => some e
  | .sync r => r.error
  | .async r => r.error

/-! Credential loading and refresh, from _load_mcsp_token and
    _refresh_token. -/

/-- Record stored for one environment in the credentials cache; both keys
    may be absent, and a stored token may be the empty string, which the
    Python truthiness tests treat like an absent one. -/
structure EnvAuth where
  wxo_mcsp_token : Option String
  wxo_mcsp_token_expiry : Option Int
deriving DecidableEq

/-- Outcome of running the external authentication subprocess: a
    completed run with its exit code and stderr, or an exception such as
    a subprocess timeout. -/
inductive SubprocOutcome
  | exits (returncode : Int) (stderr : String)
  | raisesExc (msg : String)
deriving DecidableEq

/-- Ambient state the refresh step depends on: the API key environment
    variable, the subprocess outcome when it is invoked, and the
    credentials store as re-read after the subprocess ran. -/
structure RefreshEnv where
  api_key : Option String
  subproc : SubprocOutcome
  postAuth : String → Option EnvAuth

/-- Model of WXOAgentTrigger._refresh_token.  The second component counts
    the invocations of the external authentication subprocess.  The Python
    truthiness test on the API key treats a set-but-empty variable like an
    unset one: both return before any subprocess runs. -/
def refresh_token (env_name : String) (re : RefreshEnv) : Option String × Nat :=
  match re.api_key with
  | none => (none, 0)
  | some k =>
    if k = "" then (none, 0)
    else
      match re.subproc with
      | .exits rc _ =>
        if rc ≠ 0 then (none, 1)
        else ((re.postAuth env_name).bind (fun a => a.wxo_mcsp_token), 1)
      | .raisesExc _ => (none, 1)

/-- Exceptions _load_mcsp_token can raise, tagged by raise site; the
    missing-file exception carries the credentials path its message
    embeds. -/
inductive TokenError
  | credsFileMissing (path : String)
  | noCredsForEnv (env : String)
  | noToken (env : String)
  | expiredRefreshFailed
deriving DecidableEq

/-- String form of each exception _load_mcsp_token can raise.  The second
    sentence of the no-credentials message lacks the f-prefix in the
    source, so it prints the placeholder literally rather than the
    environment name. -/
def tokenErrorStr : TokenError → String
  | .credsFileMissing path =>
      "Credentials file not found at " ++ path ++
        ". Run \x27orchestrate env activate remote\x27 first."
  | .noCredsForEnv e =>
      "No credentials found for environment \x27" ++ e ++
        "\x27. Run \x27orchestrate env activate \x7benv_name\x7d\x27 first."
  | .noToken e => "No wxo_mcsp_token found for environment \x27" ++ e ++ "\x27."
  | .expiredRefreshFailed =>
      "MCSP token has expired and auto-refresh failed. " ++
        "Run \x27orchestrate env activate remote\x27 manually."

/-- Credentials store as _load_mcsp_token sees it: the fixed per-user
    path of the file, whether the file exists, and the record for each
    environment name, where none stands for a missing or empty record
    (both fail the Python truthiness test). -/
structure CredStore where
  path : String
  file_present : Bool
  auth : String → Option EnvAuth

/-- Model of WXOAgentTrigger._load_mcsp_token.  The second component
    counts the invocations of the external authentication subprocess. -/
def load_mcsp_token (store : CredStore) (env_name : String) (now : Int)
    (re : RefreshEnv) : Except TokenError String × Nat :=
  if ¬ store.file_present then (.error (.credsFileMissing store.path), 0)
  else
    match store.auth env_name with
    | none => (.error (.noCredsForEnv env_name), 0)
    | some env_auth =>
      match env_auth.wxo_mcsp_token with
      | none => (.error (.noToken env_name), 0)
      | some token =>
        if token = "" then (.error (.noToken env_name), 0)
        else
          let expiry := env_auth.wxo_mcsp_token_expiry.getD 0
          if now > expiry then
            match refresh_token env_name re with
            | (some t, c) =>
              if t = "" then (.error .expiredRefreshFailed, c) else (.ok t, c)
            | (none, c) => (.error .expiredRefreshFailed, c)
          else (.ok token, 0)

end WXOAgentTrigger

/-! Model of the main entry point of src/superbob/cli.py. -/

/-- Ambient replies a constructed client would receive from the four
    endpoints, standing for the WXOAgentTrigger instance inside main. -/
structure ClientOps where
  listReply : HttpResp (List WXOAgentTrigger.AgentEntry)
  compReply : HttpResp WXOAgentTrigger.CompletionsBody
  runReply : HttpResp WXOAgentTrigger.RunBody
  statusReply : HttpResp WXOAgentTrigger.RunBody

/-- One item printed to standard output by main: either plain text or a
    JSON object of one of the shapes main can print. -/
inductive Printed
  | usage (s : String)
  | jsonList (r : WXOAgentTrigger.ListResult)
  | jsonTrigger (r : WXOAgentTrigger.TriggerOut)
  | jsonStatus (r : WXOAgentTrigger.StatusResult WXOAgentTrigger.RunBody)
  | jsonError (msg : String)
deriving DecidableEq

/-- Whether a printed item is a JSON object. -/
def Printed.isJsonObject : Printed → Bool
  | .usage _ => false
  | _ => true

/-- Observable outcome of one main invocation: everything printed to
    standard output, in order, and the process exit code. -/
structure MainOut where
  printed : List Printed
  exitCode : Nat
deriving DecidableEq

/-- Model of the argument scan for timeout flags in main: every argument
    beginning with the timeout prefix overwrites the current value, and a
    piece that int cannot parse raises a ValueError. -/
def parseTimeoutArgs : List String → Int → Except String Int
  | [], acc => .ok acc
  | a :: rest, acc =>
    if pyStartsWith a "--timeout=" then
      match pyInt ((pySplit a '=').getD 1 "") with
      | some v => parseTimeoutArgs rest v
      | none =>
        .error ("invalid literal for int() with base 10: \x27" ++
          (pySplit a '=').getD 1 "" ++ "\x27")
    else parseTimeoutArgs rest acc

/-- Usage text printed when main is called without a command. -/
def usageText : String :=
  "Usage: python -m superbob.cli list | trigger | status"

/-- Model of the main entry point of src/superbob/cli.py.  The argv list
    includes the program name in position zero.  The ctor argument is the
    outcome of constructing the WXOAgentTrigger client: an exception
    message when construction raises (missing instance url, credential or
    auth failure), otherwise the ambient endpoint replies. -/
def main_model (argv : List String) (ctor : Except String ClientOps) : MainOut :=
  if argv.length < 2 then ⟨[.usage usageText], 1⟩
  else
    match ctor with
    | .error e => ⟨[.jsonError e], 1⟩
    | .ok client =>
      let command := argv.getD 1 ""
      if command = "list" then
        ⟨[.jsonList (WXOAgentTrigger.list_agents client.listReply)], 0⟩
      else if command = "trigger" then
        if argv.length < 4 then
          ⟨[.usage "Error: trigger requires agent_name and message"], 1⟩
        else
          let agent_name := argv.getD 2 ""
          let message := argv.getD 3 ""
          let wait := ¬ argv.contains "--no-wait"
          match parseTimeoutArgs argv 120 with
          | .error e => ⟨[.jsonError e], 1⟩
          | .ok timeout =>
            ⟨[.jsonTrigger (WXOAgentTrigger.trigger_agent agent_name message wait
              timeout client.listReply client.compReply client.runReply)], 0⟩
      else if command = "status" then
        if argv.length < 3 then
          ⟨[.usage "Error: status requires run_id"], 1⟩
        else
          ⟨[.jsonStatus (WXOAgentTrigger.get_run_status (argv.getD 2 "")
            client.statusReply)], 0⟩
      else ⟨[.usage ("Unknown command: " ++ command)], 1⟩

/-! Model of src/wxo_agent_trigger_tool.py, tool trigger_wxo_agent. -/

namespace WxoTool

/-- Output object of a completed run; the text key is read with dict.get
    and may be absent. -/
structure WxoOutput where
  text : Option String
deriving DecidableEq

/-- Parsed JSON reply of one run-status query; every key is read with
    dict.get and may be absent. -/
structure WxoReply where
  status : Option String
  output : Option WxoOutput
  error : Option String
deriving DecidableEq

/-- Parsed JSON reply of the create_run call; the id key is read with
    dict.get and may be absent. -/
structure RunData where
  id : Option String
deriving DecidableEq

/-- Outcome of the setup and create_run portion of the tool body: the run
    data on success, or the message of the exception the SDK raised. -/
inductive CreateRunOutcome
  | ok (run_data : RunData)
  | raisesExc (msg : String)
deriving DecidableEq

/-- Result dictionary of trigger_wxo_agent; absent keys are none.  The
    run_id field is doubly optional: the outer layer records whether the
    dictionary carries the key at all, the inner layer is the value that
    dict.get produced for the id of the run. -/
structure WxoResult where
  success : Bool
  agent_name : Option String
  run_id : Option (Option String)
  status : Option String
  response : Option String
  full_output : Option WxoOutput
  message : Option String
  error : Option String
deriving DecidableEq

/-- Model of the polling loop of trigger_wxo_agent.  Elapsed time is the
    sum of the two-second sleeps performed so far, statusAt gives the
    reply to the k-th status query, n counts the queries already made,
    and the returned number is the total count of status queries. -/
def pollLoop (statusAt : Nat → WxoReply) (agent_name : String)
    (run_id : Option String) (timeout : Int) (n : Nat) (elapsed : Nat) :
    WxoResult × Nat :=
  if h : (elapsed : Int) < timeout then
    let status_data := statusAt n
    if status_data.status = some "completed" then
      let output := status_data.output.getD ⟨none⟩
      ({ success := true, agent_name := some agent_name, run_id := some run_id,
         status := some "completed", response := some (output.text.getD ""),
         full_output := some output, message := none, error := none }, n + 1)
    else if status_data.status = some "failed" then
      ({ success := false, agent_name := some agent_name, run_id := some run_id,
         status := some "failed", response := none, full_output := none,
         message := none,
         error := some (status_data.error.getD "Agent run failed") }, n + 1)
    else
      pollLoop statusAt agent_name run_id timeout (n + 1) (elapsed + 2)
  else
    ({ success := false, agent_name := some agent_name, run_id := some run_id,
       status := some "timeout", response := none, full_output := none,
       message := none,
       error := some ("Agent did not complete within " ++ toString timeout ++
         " seconds") }, n)
termination_by (timeout - (elapsed : Int)).toNat
decreasing_by omega

/-- Model of trigger_wxo_agent, as a function of the create_run outcome
    and of the replies to the successive status queries.  The second
    component counts the status queries performed. -/
def trigger_wxo_agent (agent_name user_input : String) (wait_for_response : Bool)
    (timeout : Int) (create : CreateRunOutcome) (statusAt : Nat → WxoReply) :
    WxoResult × Nat :=
  match create with
  | .raisesExc msg =>
    ({ success := false, agent_name := some agent_name, run_id := none,
       status := none, response := none, full_output := none, message := none,
       error := some ("Agent trigger error: " ++ msg) }, 0)
  | .ok run_data =>
    let run_id := run_data.id
    if ¬ wait_for_response then
      ({ success := true, agent_name := some agent_name, run_id := some run_id,
         status := some "started", response := none, full_output := none,
         message := some ("Agent " ++ agent_name ++ " started successfully"),
         error := none }, 0)
    else
      pollLoop statusAt agent_name run_id timeout 0 0

end WxoTool

/-! Model of src/scripts/bob_wxo_cli_wrapper.py, method
    WXOCLIWrapper.list_agents. -/

namespace WXOCLIWrapper

/-- An agent record built from one data row of the table. -/
structure CliAgent where
  name : String
  display_name : String
  description : String
  llm : String
deriving DecidableEq

/-- Cell values of one table row: split on the vertical delimiter, strip
    every piece, and drop the empty pieces. -/
def cleanParts (line : String) : List String :=
  ((pySplit line '│').map pyStrip).filter fun p => p ≠ ""

/-- Agent record a data row yields: none when the cleaned parts are empty,
    otherwise positional fields with missing trailing columns treated as
    the empty string.  After the filter, the first part is never the empty
    string, so the Python truthiness test on it always passes. -/
def rowAgent (line : String) : Option CliAgent :=
  match cleanParts line with
  | [] => none
  | p0 :: rest => some ⟨p0, rest.getD 0 "", rest.getD 1 "", rest.getD 2 ""⟩

/-- Model of the line loop of WXOCLIWrapper.list_agents: rows before the
    header separator are skipped, the bottom border stops the scan, and a
    row is parsed only when the data flag is set and it contains the
    vertical delimiter. -/
def parseAgentLines : List String → Bool → List CliAgent
  | [], _ => []
  | line :: rest, in_data =>
    if pyStartsWith line "┡" then parseAgentLines rest true
    else if pyStartsWith line "└" then []
    else if in_data && line.toList.contains '│' then
      match rowAgent line with
      | some a => a :: parseAgentLines rest in_data
      | none => parseAgentLines rest in_data
    else parseAgentLines rest in_data

/-- Result dictionary of WXOCLIWrapper.list_agents; absent keys are
    none. -/
structure WrapListResult where
  success : Bool
  agent_count : Option Nat
  agents : Option (List CliAgent)
  error : Option String
deriving DecidableEq

/-- Model of WXOCLIWrapper.list_agents, as a function of the outcome of
    the external list command: its exit code, stderr, and stdout split
    into lines. -/
def list_agents (returncode : Int) (stderr : String)
    (stdout_lines : List String) : WrapListResult :=
  if returncode ≠ 0 then
    { success := false, agent_count := none, agents := none, error := some stderr }
  else
    let agents := parseAgentLines stdout_lines false
    { success := true, agent_count := some agents.length, agents := some agents,
      error := none }

end WXOCLIWrapper

/-! Spec-side classification of results into Trigger Result variants,
    following the data model wording of the specification. -/

/-- Spec-side variant of a list_agents result: a successful fetch plays
    the Completed role, every failure the Failed role. -/
def WXOAgentTrigger.ListResult.specVariant (r : WXOAgentTrigger.ListResult) :
    TRVariant :=
  if r.error = none then .Completed else .Failed

/-- Spec-side variant of a synchronous trigger result, read off the status
    key of the dictionary. -/
def WXOAgentTrigger.SyncResult.specVariant (r : WXOAgentTrigger.SyncResult) :
    TRVariant :=
  if r.status = some "completed" then .Completed else .Failed

/-- Spec-side variant of an asynchronous trigger result, read off the
    status key of the dictionary. -/
def WXOAgentTrigger.AsyncResult.specVariant (r : WXOAgentTrigger.AsyncResult) :
    TRVariant :=
  if r.status = some "started" then .Started else .Failed

/-- Spec-side variant of a get_run_status result: a successful query plays
    the Completed role, every failure the Failed role. -/
def WXOAgentTrigger.StatusResult.specVariant {β : Type}
    (r : WXOAgentTrigger.StatusResult β) : TRVariant :=
  if r.error = none then .Completed else .Failed

/-- Spec-side variant of a trigger_agent result. -/
def WXOAgentTrigger.TriggerOut.specVariant : WXOAgentTrigger.TriggerOut → TRVariant
  | .resolveFail _ _ => .Failed
  | .sync r => r.specVariant
  | .async r => r.specVariant

/-- Spec-side variant of a trigger_wxo_agent result, read off the status
    key of the dictionary. -/
def WxoTool.WxoResult.specVariant (r : WxoTool.WxoResult) : TRVariant :=
  match r.status with
  | some "started" => .Started
  | some "completed" => .Completed
  | some "timeout" => .TimedOut
  | _ => .Failed

/-! Helper lemmas about the error strings of the model. -/

/-- Appending to a non-empty string on the left keeps it non-empty. -/
theorem append_ne_empty_left (a b : String) (h : a ≠ "") : a ++ b ≠ "" := by
  intro he
  apply h
  have hl := congrArg String.length he
  rw [String.length_append] at hl
  have h0 : a.length = 0 := by
    have hz : ("" : String).length = 0 := rfl
    omega
  cases a with
  | mk data =>
    cases data with
    | nil => rfl
    | cons c cs => simp [String.length] at h0

/-- Appending to a non-empty string on the right keeps it non-empty. -/
theorem append_ne_empty_right (a b : String) (h : b ≠ "") : a ++ b ≠ "" := by
  intro he
  apply h
  have hl := congrArg String.length he
  rw [String.length_append] at hl
  have h0 : b.length = 0 := by
    have hz : ("" : String).length = 0 := rfl
    omega
  cases b with
  | mk data =>
    cases data with
    | nil => rfl
    | cons c cs => simp [String.length] at h0

/-- An HTTPError message is never the empty string. -/
theorem httpErrorStr_ne_empty (s : Nat) (re u : String) : httpErrorStr s re u ≠ "" := by
  unfold httpErrorStr
  apply append_ne_empty_left
  apply append_ne_empty_left
  apply append_ne_empty_left
  apply append_ne_empty_right
  split <;> decide

/-- A JSONDecodeError message is never the empty string. -/
theorem jsonDecodeErrorStr_ne_empty : jsonDecodeErrorStr ≠ "" := by decide

/-- Every exception escaping the resolve step renders to a non-empty
    string. -/
theorem resolveFailStr_ne_empty (e : WXOAgentTrigger.ResolveFail) :
    WXOAgentTrigger.resolveFailStr e ≠ "" := by
  cases e with
  | httpError s re u => exact httpErrorStr_ne_empty s re u
  | jsonError => decide
  | keyErrorId => decide
  | notFound n =>
    unfold WXOAgentTrigger.resolveFailStr
    apply append_ne_empty_right
    decide

/-- Every KeyError message produced by the reply extraction is a non-empty
    string. -/
theorem extractReply_error_ne_empty (cs : List WXOAgentTrigger.Choice) (e : String)
    (h : WXOAgentTrigger.extractReply cs = .error e) : e ≠ "" := by
  match cs with
  | [] => simp [WXOAgentTrigger.extractReply] at h
  | c :: rest =>
    match hm : c.message with
    | none =>
      simp [WXOAgentTrigger.extractReply, hm] at h
      subst h
      decide
    | some m =>
      match hc : m.content with
      | none =>
        simp [WXOAgentTrigger.extractReply, hm, hc] at h
        subst h
        decide
      | some t =>
        simp [WXOAgentTrigger.extractReply, hm, hc] at h

/-! Claim C6. -/

/-- C6: a synchronous trigger whose completions endpoint replies with HTTP
    status 200 and a JSON body whose choices list is empty yields a
    Completed result, success true, with response equal to the empty
    string, not an error. -/
theorem c6_empty_choices_completed (agent_id agent_name user_input : String)
    (timeout : Int) (r : HttpResp WXOAgentTrigger.CompletionsBody)
    (data : WXOAgentTrigger.CompletionsBody)
    (hs : r.status = 200) (hb : r.body = some data)
    (hc : data.choices.getD [] = []) :
    (WXOAgentTrigger.trigger_sync agent_id agent_name user_input timeout r).success
        = true ∧
    (WXOAgentTrigger.trigger_sync agent_id agent_name user_input timeout r).response
        = some "" ∧
    (WXOAgentTrigger.trigger_sync agent_id agent_name user_input timeout
        r).specVariant = .Completed ∧
    (WXOAgentTrigger.trigger_sync agent_id agent_name user_input timeout r).error
        = none := by
  have hraise : raisesHttpError r.status = false := by rw [hs]; decide
  simp [WXOAgentTrigger.trigger_sync, hraise, hb, hc, WXOAgentTrigger.extractReply,
    WXOAgentTrigger.SyncResult.specVariant]

/-- Witness for C6 at a concrete 200 reply with an empty choices list. -/
theorem c6_empty_choices_completed_witness :
    (WXOAgentTrigger.trigger_sync "11111111-1111-1111-1111-111111111111" "Bob"
        "hi" 120 ⟨200, "OK", "https://wxo.example/v1", "", some ⟨some []⟩⟩).response
      = some "" :=
  (c6_empty_choices_completed "11111111-1111-1111-1111-111111111111" "Bob" "hi" 120
    ⟨200, "OK", "https://wxo.example/v1", "", some ⟨some []⟩⟩ ⟨some []⟩
    rfl rfl rfl).2.1

/-! Claim C7. -/

/-- C7 counterexample: a non-2xx reply outside the 400 to 599 range, here
    status 304 with a parseable body, does not yield a Failed result with
    that status code: raise_for_status does not raise on it and the call
    follows the success path. -/
theorem c7_counterexample :
    (WXOAgentTrigger.trigger_sync "11111111-1111-1111-1111-111111111111" "Bob"
        "hi" 120 ⟨304, "Not Modified", "https://wxo.example/v1", "",
          some ⟨some []⟩⟩).success = true ∧
    (WXOAgentTrigger.trigger_sync "11111111-1111-1111-1111-111111111111" "Bob"
        "hi" 120 ⟨304, "Not Modified", "https://wxo.example/v1", "",
          some ⟨some []⟩⟩).status_code = none := by
  constructor <;> rfl

/-- C7 amended: a synchronous trigger whose completions endpoint replies
    with a status in the 400 to 599 range, in particular 401, yields a
    Failed result, success false, carrying that status code and the raw
    response body; non-2xx statuses outside that range do not raise. -/
theorem c7_http_error_failed (agent_id agent_name user_input : String)
    (timeout : Int) (r : HttpResp WXOAgentTrigger.CompletionsBody)
    (h4 : 400 ≤ r.status) (h6 : r.status < 600) :
    (WXOAgentTrigger.trigger_sync agent_id agent_name user_input timeout r).success
        = false ∧
    (WXOAgentTrigger.trigger_sync agent_id agent_name user_input timeout
        r).status_code = some r.status ∧
    (WXOAgentTrigger.trigger_sync agent_id agent_name user_input timeout r).body
        = some r.text ∧
    (WXOAgentTrigger.trigger_sync agent_id agent_name user_input timeout
        r).specVariant = .Failed := by
  have hraise : raisesHttpError r.status = true := by
    unfold raisesHttpError
    simp only [decide_eq_true_eq]
    exact ⟨h4, h6⟩
  simp [WXOAgentTrigger.trigger_sync, hraise, WXOAgentTrigger.SyncResult.specVariant]

/-- Witness for C7 amended at a concrete 401 reply. -/
theorem c7_http_error_failed_witness :
    (WXOAgentTrigger.trigger_sync "11111111-1111-1111-1111-111111111111" "Bob"
        "hi" 120 ⟨401, "Unauthorized", "https://wxo.example/v1", "denied",
          none⟩).status_code = some 401 :=
  (c7_http_error_failed "11111111-1111-1111-1111-111111111111" "Bob" "hi" 120
    ⟨401, "Unauthorized", "https://wxo.example/v1", "denied", none⟩
    (by decide) (by decide)).2.1

/-! Claims about agent resolution. -/

/-- Characterisation of a failed name search: no entry of the list has the
    requested name. -/
theorem findByName_eq_none_iff (agents : List WXOAgentTrigger.AgentEntry)
    (ref : String) :
    WXOAgentTrigger.findByName agents ref = none ↔
      ∀ a ∈ agents, a.name ≠ some ref := by
  induction agents with
  | nil => simp [WXOAgentTrigger.findByName]
  | cons a rest ih =>
    by_cases ha : a.name = some ref
    · simp [WXOAgentTrigger.findByName, ha]
    · simp [WXOAgentTrigger.findByName, ha, ih]

/-- The name search returns the first matching entry: every entry before
    it fails the comparison, the entry itself matches. -/
theorem findByName_first (pre : List WXOAgentTrigger.AgentEntry)
    (a : WXOAgentTrigger.AgentEntry) (post : List WXOAgentTrigger.AgentEntry)
    (ref : String) (hpre : ∀ b ∈ pre, b.name ≠ some ref)
    (ha : a.name = some ref) :
    WXOAgentTrigger.findByName (pre ++ a :: post) ref = some a := by
  induction pre with
  | nil => simp [WXOAgentTrigger.findByName, ha]
  | cons b rest ih =>
    have hb : b.name ≠ some ref := hpre b (by simp)
    simp only [List.cons_append, WXOAgentTrigger.findByName, hb, if_neg]
    exact ih fun x hx => hpre x (by simp [hx])

/-- C4: resolution of an agent reference.  A reference matching the fixed
    UUID shape is returned unchanged with no list fetch; any other
    reference costs exactly one list fetch, resolves to the id of the
    first entry whose name equals it exactly and case-sensitively, and
    yields a not-found error when no entry matches. -/
theorem c4_resolve_agent_id (ref : String)
    (r : HttpResp (List WXOAgentTrigger.AgentEntry)) :
    (WXOAgentTrigger.uuidShaped ref = true →
      WXOAgentTrigger.resolve_agent_id ref r = (.ok ref, 0)) ∧
    (WXOAgentTrigger.uuidShaped ref = false →
      (WXOAgentTrigger.resolve_agent_id ref r).2 = 1) ∧
    (WXOAgentTrigger.uuidShaped ref = false →
      raisesHttpError r.status = false →
      ∀ agents, r.body = some agents →
      ((∀ a ∈ agents, a.name ≠ some ref) →
        (WXOAgentTrigger.resolve_agent_id ref r).1 = .error (.notFound ref)) ∧
      (∀ pre a post i, agents = pre ++ a :: post →
        (∀ b ∈ pre, b.name ≠ some ref) → a.name = some ref → a.id = some i →
        (WXOAgentTrigger.resolve_agent_id ref r).1 = .ok i)) := by
  refine ⟨fun hu => ?_, fun hu => ?_, fun hu hraise agents hb => ⟨fun hnone => ?_, ?_⟩⟩
  · simp [WXOAgentTrigger.resolve_agent_id, hu]
  · unfold WXOAgentTrigger.resolve_agent_id
    rw [hu]
    simp only [Bool.false_eq_true, if_false]
    split
    · rfl
    · split
      · rfl
      · split
        · split <;> rfl
        · rfl
  · have hfind : WXOAgentTrigger.findByName agents ref = none :=
      (findByName_eq_none_iff agents ref).mpr hnone
    simp [WXOAgentTrigger.resolve_agent_id, hu, hraise, hb, hfind]
  · intro pre a post i hsplit hpre ha hid
    have hfind : WXOAgentTrigger.findByName agents ref = some a := by
      rw [hsplit]; exact findByName_first pre a post ref hpre ha
    simp [WXOAgentTrigger.resolve_agent_id, hu, hraise, hb, hfind, hid]

/-- Witness for C4 at a concrete name, list, and reply: the name Bob is
    not UUID-shaped, costs one fetch, and resolves to the id of the first
    entry named Bob. -/
theorem c4_resolve_agent_id_witness :
    (WXOAgentTrigger.resolve_agent_id "Bob"
      ⟨200, "OK", "https://wxo.example/v1", "",
        some [⟨some "Al", some "redherring", none⟩,
              ⟨some "Bob", some "11111111-1111-1111-1111-111111111111", none⟩]⟩).1
      = .ok "11111111-1111-1111-1111-111111111111" :=
  ((c4_resolve_agent_id "Bob"
      ⟨200, "OK", "https://wxo.example/v1", "",
        some [⟨some "Al", some "redherring", none⟩,
              ⟨some "Bob", some "11111111-1111-1111-1111-111111111111", none⟩]⟩).2.2
    (by decide) (by decide) _ rfl).2
    [⟨some "Al", some "redherring", none⟩]
    ⟨some "Bob", some "11111111-1111-1111-1111-111111111111", none⟩ [] _
    rfl (by decide) rfl rfl

/-- C10: the fast-path shape test accepts exactly the strings of length 36
    containing exactly four hyphen characters, regardless of their
    positions; every such string is returned unchanged with no agent-list
    fetch, so a 36-character four-hyphen agent name is never resolved by
    name, even when the fetched list names it with a different id. -/
theorem c10_shape_test :
    (∀ s : String,
      WXOAgentTrigger.uuidShaped s = true ↔
        (s.length = 36 ∧ s.toList.count '-' = 4)) ∧
    (∀ (s : String) (r : HttpResp (List WXOAgentTrigger.AgentEntry)),
      WXOAgentTrigger.uuidShaped s = true →
      WXOAgentTrigger.resolve_agent_id s r = (.ok s, 0)) ∧
    (∀ r : HttpResp (List WXOAgentTrigger.AgentEntry),
      WXOAgentTrigger.resolve_agent_id "abcdefgh-ijklmnop-qrstuvwx-yz012345-" r =
        (.ok "abcdefgh-ijklmnop-qrstuvwx-yz012345-", 0)) := by
  refine ⟨fun s => ?_, fun s r hu => ?_, fun r => ?_⟩
  · simp [WXOAgentTrigger.uuidShaped]
  · simp [WXOAgentTrigger.resolve_agent_id, hu]
  · have hu : WXOAgentTrigger.uuidShaped
        "abcdefgh-ijklmnop-qrstuvwx-yz012345-" = true := by decide
    simp [WXOAgentTrigger.resolve_agent_id, hu]

/-- Witness for C10: a concrete non-canonical 36-character string with
    four hyphens passes the shape test and short-circuits resolution even
    though the agent list maps that exact name to a different id. -/
theorem c10_shape_test_witness :
    WXOAgentTrigger.resolve_agent_id "abcdefgh-ijklmnop-qrstuvwx-yz012345-"
      ⟨200, "OK", "https://wxo.example/v1", "",
        some [⟨some "abcdefgh-ijklmnop-qrstuvwx-yz012345-", some "the-real-id",
          none⟩]⟩ =
      (.ok "abcdefgh-ijklmnop-qrstuvwx-yz012345-", 0) :=
  c10_shape_test.2.2
    ⟨200, "OK", "https://wxo.example/v1", "",
      some [⟨some "abcdefgh-ijklmnop-qrstuvwx-yz012345-", some "the-real-id",
        none⟩]⟩

/-! Claims about the polling loop of trigger_wxo_agent. -/

/-- C8: with a status endpoint that always reports running, a wait of
    timeoutSeconds three and the fixed two-second poll interval terminates
    with a TimedOut result after exactly two status queries, one at
    elapsed time zero and one at elapsed time two, and never performs a
    third, elapsed time being the sum of the sleeps performed. -/
theorem c8_running_times_out (agent_name user_input : String)
    (run_data : WxoTool.RunData) (statusAt : Nat → WxoTool.WxoReply)
    (hrun : ∀ n, (statusAt n).status = some "running") :
    (WxoTool.trigger_wxo_agent agent_name user_input true 3 (.ok run_data)
        statusAt).2 = 2 ∧
    (WxoTool.trigger_wxo_agent agent_name user_input true 3 (.ok run_data)
        statusAt).1.status = some "timeout" ∧
    (WxoTool.trigger_wxo_agent agent_name user_input true 3 (.ok run_data)
        statusAt).1.success = false ∧
    (WxoTool.trigger_wxo_agent agent_name user_input true 3 (.ok run_data)
        statusAt).1.specVariant = .TimedOut := by
  refine ⟨?_, ?_, ?_, ?_⟩ <;>
    simp [WxoTool.trigger_wxo_agent, WxoTool.pollLoop, hrun,
      WxoTool.WxoResult.specVariant]

/-- Witness for C8 with the constant running reply. -/
theorem c8_running_times_out_witness :
    (WxoTool.trigger_wxo_agent "SuperBob_2079Hm" "hi" true 3 (.ok ⟨some "r1"⟩)
        (fun _ => ⟨some "running", none, none⟩)).2 = 2 :=
  (c8_running_times_out "SuperBob_2079Hm" "hi" ⟨some "r1"⟩
    (fun _ => ⟨some "running", none, none⟩) (fun _ => rfl)).1

/-- C2 counterexample: with timeoutSeconds zero the while loop of
    trigger_wxo_agent tests the deadline before the first query, so even a
    status endpoint that would report completed on the first query is
    never consulted: zero queries are made and the result is TimedOut, not
    Completed. -/
theorem c2_counterexample :
    (WxoTool.trigger_wxo_agent "SuperBob_2079Hm" "hi" true 0 (.ok ⟨some "r1"⟩)
        (fun _ => ⟨some "completed", some ⟨some "done"⟩, none⟩)).2 = 0 ∧
    (WxoTool.trigger_wxo_agent "SuperBob_2079Hm" "hi" true 0 (.ok ⟨some "r1"⟩)
        (fun _ => ⟨some "completed", some ⟨some "done"⟩, none⟩)).1.status
      = some "timeout" ∧
    (WxoTool.trigger_wxo_agent "SuperBob_2079Hm" "hi" true 0 (.ok ⟨some "r1"⟩)
        (fun _ => ⟨some "completed", some ⟨some "done"⟩, none⟩)).1.success
      = false := by
  refine ⟨?_, ?_, ?_⟩ <;> simp [WxoTool.trigger_wxo_agent, WxoTool.pollLoop]

/-- C2 amended: the while loop evaluates the elapsed-time deadline before
    every query, the first one included.  For every positive
    timeoutSeconds the first query does precede any deadline
    re-evaluation, and a status endpoint returning completed on the first
    query yields Completed after exactly one query; with timeoutSeconds at
    most zero the loop performs no query at all and returns TimedOut
    immediately. -/
theorem c2_first_poll (agent_name user_input : String) (timeout : Int)
    (run_data : WxoTool.RunData) (statusAt : Nat → WxoTool.WxoReply) :
    (0 < timeout → (statusAt 0).status = some "completed" →
      ((WxoTool.trigger_wxo_agent agent_name user_input true timeout
          (.ok run_data) statusAt).2 = 1 ∧
       (WxoTool.trigger_wxo_agent agent_name user_input true timeout
          (.ok run_data) statusAt).1.status = some "completed" ∧
       (WxoTool.trigger_wxo_agent agent_name user_input true timeout
          (.ok run_data) statusAt).1.success = true)) ∧
    (timeout ≤ 0 →
      ((WxoTool.trigger_wxo_agent agent_name user_input true timeout
          (.ok run_data) statusAt).2 = 0 ∧
       (WxoTool.trigger_wxo_agent agent_name user_input true timeout
          (.ok run_data) statusAt).1.status = some "timeout")) := by
  constructor
  · intro ht hc
    have h0 : ((0 : Nat) : Int) < timeout := by push_cast; omega
    have hres : WxoTool.trigger_wxo_agent agent_name user_input true timeout
        (.ok run_data) statusAt =
        ({ success := true, agent_name := some agent_name,
           run_id := some run_data.id, status := some "completed",
           response := some (((statusAt 0).output.getD ⟨none⟩).text.getD ""),
           full_output := some ((statusAt 0).output.getD ⟨none⟩),
           message := none, error := none }, 1) := by
      simp only [WxoTool.trigger_wxo_agent]
      rw [WxoTool.pollLoop]
      simp [h0, hc]
      omega
    rw [hres]
    exact ⟨rfl, rfl, rfl⟩
  · intro ht
    have hnlt : ¬ (((0 : Nat) : Int) < timeout) := by push_cast; omega
    have hres : WxoTool.trigger_wxo_agent agent_name user_input true timeout
        (.ok run_data) statusAt =
        ({ success := false, agent_name := some agent_name,
           run_id := some run_data.id, status := some "timeout",
           response := none, full_output := none, message := none,
           error := some ("Agent did not complete within " ++ toString timeout ++
             " seconds") }, 0) := by
      simp only [WxoTool.trigger_wxo_agent]
      rw [WxoTool.pollLoop]
      have hn : ¬ ((0 : Int) < timeout) := by omega
      simp [hn]
    rw [hres]
    exact ⟨rfl, rfl⟩

/-- Witness for C2 amended: a positive timeout with a first-query
    completed reply makes exactly one query, and a zero timeout makes
    none. -/
theorem c2_first_poll_witness :
    ((WxoTool.trigger_wxo_agent "SuperBob_2079Hm" "hi" true 60 (.ok ⟨some "r1"⟩)
        (fun _ => ⟨some "completed", some ⟨some "done"⟩, none⟩)).2 = 1) ∧
    ((WxoTool.trigger_wxo_agent "SuperBob_2079Hm" "hi" true 0 (.ok ⟨some "r1"⟩)
        (fun _ => ⟨some "completed", some ⟨some "done"⟩, none⟩)).2 = 0) :=
  ⟨((c2_first_poll "SuperBob_2079Hm" "hi" 60 ⟨some "r1"⟩
      (fun _ => ⟨some "completed", some ⟨some "done"⟩, none⟩)).1
      (by decide) rfl).1,
   ((c2_first_poll "SuperBob_2079Hm" "hi" 0 ⟨some "r1"⟩
      (fun _ => ⟨some "completed", some ⟨some "done"⟩, none⟩)).2
      (by decide)).1⟩

/-! Claim C9: the tabular-output scan of the CLI wrapper. -/

/-- Lines before the header separator are skipped: while the data flag is
    still unset, rows that are neither a header separator nor a bottom
    border leave the scan result unchanged. -/
theorem parseAgentLines_skip_pre (pre rest : List String)
    (hpre : ∀ l ∈ pre, pyStartsWith l "┡" = false ∧ pyStartsWith l "└" = false) :
    WXOCLIWrapper.parseAgentLines (pre ++ rest) false =
      WXOCLIWrapper.parseAgentLines rest false := by
  induction pre with
  | nil => rfl
  | cons l ls ih =>
    have hl := hpre l (by simp)
    simp only [List.cons_append, WXOCLIWrapper.parseAgentLines, hl.1, hl.2,
      Bool.false_eq_true, if_false, Bool.false_and]
    exact ih fun x hx => hpre x (by simp [hx])

/-- Inside the data region, rows are parsed in order: with the data flag
    set, a block of rows that contains neither a header separator nor a
    bottom border contributes exactly its parseable delimiter rows. -/
theorem parseAgentLines_data (data rest : List String)
    (hdata : ∀ l ∈ data, pyStartsWith l "┡" = false ∧ pyStartsWith l "└" = false) :
    WXOCLIWrapper.parseAgentLines (data ++ rest) true =
      (data.filterMap fun l =>
        if l.toList.contains '│' then WXOCLIWrapper.rowAgent l else none)
        ++ WXOCLIWrapper.parseAgentLines rest true := by
  induction data with
  | nil => simp
  | cons l ls ih =>
    have hl := hdata l (by simp)
    have ih2 := ih fun x hx => hdata x (by simp [hx])
    by_cases hc : '│' ∈ l.data
    · cases hr : WXOCLIWrapper.rowAgent l with
      | some a =>
        simp [WXOCLIWrapper.parseAgentLines, hl.1, hl.2, hc, hr, ih2]
      | none =>
        simp [WXOCLIWrapper.parseAgentLines, hl.1, hl.2, hc, hr, ih2]
    · simp [WXOCLIWrapper.parseAgentLines, hl.1, hl.2, hc, ih2]

/-- A row that begins with the bottom-border character does not begin with
    the header-separator character. -/
theorem pyStartsWith_border_not_header (s : String)
    (h : pyStartsWith s "└" = true) : pyStartsWith s "┡" = false := by
  cases s with
  | mk data =>
    cases data with
    | nil => exact absurd h (by decide)
    | cons c cs =>
      unfold pyStartsWith at h ⊢
      simp [List.isPrefixOf] at h ⊢
      intro hce
      rw [← h] at hce
      exact absurd hce (by decide)

/-- C9: the table scan of WXOCLIWrapper.list_agents skips every row before
    the header separator and every row at or after the bottom border,
    emits agents exactly from the delimiter-bearing data rows in between,
    splitting on the vertical delimiter with no escaping, and treats
    missing trailing columns as the empty string. -/
theorem c9_table_rows :
    (∀ (pre data post : List String) (hsep bline : String),
      pyStartsWith hsep "┡" = true → pyStartsWith bline "└" = true →
      (∀ l ∈ pre, pyStartsWith l "┡" = false ∧ pyStartsWith l "└" = false) →
      (∀ l ∈ data, pyStartsWith l "┡" = false ∧ pyStartsWith l "└" = false) →
      WXOCLIWrapper.parseAgentLines (pre ++ hsep :: (data ++ bline :: post)) false =
        data.filterMap fun l =>
          if l.toList.contains '│' then WXOCLIWrapper.rowAgent l else none) ∧
    (∀ line p0, WXOCLIWrapper.cleanParts line = [p0] →
      WXOCLIWrapper.rowAgent line = some ⟨p0, "", "", ""⟩) ∧
    (∀ line p0 p1, WXOCLIWrapper.cleanParts line = [p0, p1] →
      WXOCLIWrapper.rowAgent line = some ⟨p0, p1, "", ""⟩) := by
  refine ⟨fun pre data post hsep bline hhs hbl hpre hdata => ?_,
    fun line p0 h => ?_, fun line p0 p1 h => ?_⟩
  · rw [parseAgentLines_skip_pre pre _ hpre]
    simp only [WXOCLIWrapper.parseAgentLines, hhs, if_true]
    rw [parseAgentLines_data data _ hdata]
    simp [WXOCLIWrapper.parseAgentLines, hbl,
      pyStartsWith_border_not_header bline hbl]
  · simp [WXOCLIWrapper.rowAgent, h]
  · simp [WXOCLIWrapper.rowAgent, h]

/-- Witness for C9 on a concrete table: border and header rows are
    skipped, the row after the bottom border is ignored, and the one-cell
    row yields empty trailing columns. -/
theorem c9_table_rows_witness :
    WXOCLIWrapper.parseAgentLines
      (["┏━━━┳━━━┓", "┃ Name ┃ Dis ┃"] ++ "┡━━━╇━━━┩" ::
        (["│ Bob │ B1 │", "│ Al │"] ++ "└───┴───┘" :: ["│ Zed │"])) false =
      [⟨"Bob", "B1", "", ""⟩, ⟨"Al", "", "", ""⟩] := by
  rw [c9_table_rows.1 ["┏━━━┳━━━┓", "┃ Name ┃ Dis ┃"] ["│ Bob │ B1 │", "│ Al │"]
    ["│ Zed │"] "┡━━━╇━━━┩" "└───┴───┘" (by decide) (by decide) (by decide)
    (by decide)]
  decide

/-! Claim C5: expired credentials and the refresh subprocess. -/

/-- Whenever the API key is configured to a non-empty value, one refresh
    attempt invokes the external subprocess exactly once, whatever its
    outcome. -/
theorem refresh_token_count (env_name : String) (re : WXOAgentTrigger.RefreshEnv)
    (k : String) (hk : re.api_key = some k) (hkne : k ≠ "") :
    (WXOAgentTrigger.refresh_token env_name re).2 = 1 := by
  unfold WXOAgentTrigger.refresh_token
  rw [hk]
  simp only [hkne, if_false]
  cases re.subproc with
  | exits rc serr =>
    by_cases hrc : rc = 0
    · simp [hrc]
    · simp [hrc]
  | raisesExc msg => rfl

/-- C5 counterexample: an expired credential record with no configured API
    key performs zero invocations of the external authentication
    subprocess, not exactly one; the single refresh attempt fails
    immediately and the result is the AuthError. -/
theorem c5_counterexample :
    WXOAgentTrigger.load_mcsp_token
      ⟨"~/.cache/orchestrate/credentials.yaml", true,
        fun e => if e = "remote" then some ⟨some "cached-token", some 100⟩
          else none⟩
      "remote" 200 ⟨none, .exits 0 "", fun _ => none⟩ =
      (.error .expiredRefreshFailed, 0) := by
  rfl

/-- C5 amended: an expired credential record triggers exactly one refresh
    attempt, during which the external authentication subprocess is
    invoked exactly once when the API key is configured to a non-empty
    value and not at all otherwise, the set-but-empty variable included;
    whenever the refresh yields no token, in particular when the
    subprocess exits non-zero, the outcome is the AuthError naming the
    manual remediation step and no token is returned. -/
theorem c5_expired_refresh (store : WXOAgentTrigger.CredStore) (env_name : String)
    (now : Int) (re : WXOAgentTrigger.RefreshEnv)
    (env_auth : WXOAgentTrigger.EnvAuth) (token : String)
    (hfile : store.file_present = true)
    (hauth : store.auth env_name = some env_auth)
    (htok : env_auth.wxo_mcsp_token = some token) (hne : token ≠ "")
    (hexp : now > env_auth.wxo_mcsp_token_expiry.getD 0) :
    (re.api_key = none ∨ re.api_key = some "" →
      WXOAgentTrigger.load_mcsp_token store env_name now re =
        (.error .expiredRefreshFailed, 0)) ∧
    (∀ k, re.api_key = some k → k ≠ "" →
      (WXOAgentTrigger.load_mcsp_token store env_name now re).2 = 1) ∧
    (∀ k rc serr, re.api_key = some k → k ≠ "" → re.subproc = .exits rc serr →
      rc ≠ 0 →
      WXOAgentTrigger.load_mcsp_token store env_name now re =
        (.error .expiredRefreshFailed, 1)) ∧
    WXOAgentTrigger.tokenErrorStr .expiredRefreshFailed =
      "MCSP token has expired and auto-refresh failed. " ++
        "Run \x27orchestrate env activate remote\x27 manually." := by
  refine ⟨fun hk => ?_, fun k hk hkne => ?_,
    fun k rc serr hk hkne hsub hrc => ?_, rfl⟩
  · have href : WXOAgentTrigger.refresh_token env_name re = (none, 0) := by
      unfold WXOAgentTrigger.refresh_token
      rcases hk with hk | hk
      · rw [hk]
      · rw [hk]
        simp
    unfold WXOAgentTrigger.load_mcsp_token
    simp [hfile, hauth, htok, hne, hexp, href]
  · have hc := refresh_token_count env_name re k hk hkne
    unfold WXOAgentTrigger.load_mcsp_token
    simp only [hfile, hauth, htok, Bool.not_true, Bool.false_eq_true, if_false]
    rcases href : WXOAgentTrigger.refresh_token env_name re with ⟨t, c⟩
    rw [href] at hc
    simp only at hc
    cases t with
    | none => simp [hne, hexp, href, hc]
    | some t =>
      by_cases ht : t = ""
      · simp [hne, hexp, href, ht, hc]
      · simp [hne, hexp, href, ht, hc]
  · have href : WXOAgentTrigger.refresh_token env_name re = (none, 1) := by
      unfold WXOAgentTrigger.refresh_token
      rw [hk, hsub]
      simp [hkne, hrc]
    unfold WXOAgentTrigger.load_mcsp_token
    simp [hfile, hauth, htok, hne, hexp, href]

/-- Witness for C5 amended: a concrete expired record with a configured
    API key whose refresh subprocess exits with code one yields the
    AuthError after exactly one subprocess invocation. -/
theorem c5_expired_refresh_witness :
    WXOAgentTrigger.load_mcsp_token
      ⟨"~/.cache/orchestrate/credentials.yaml", true,
        fun e => if e = "remote" then some ⟨some "cached-token", some 100⟩
          else none⟩
      "remote" 200 ⟨some "api-key", .exits 1 "activation failed", fun _ => none⟩ =
      (.error .expiredRefreshFailed, 1) :=
  ((c5_expired_refresh
      ⟨"~/.cache/orchestrate/credentials.yaml", true,
        fun e => if e = "remote" then some ⟨some "cached-token", some 100⟩
          else none⟩
      "remote" 200 ⟨some "api-key", .exits 1 "activation failed", fun _ => none⟩
      ⟨some "cached-token", some 100⟩ "cached-token"
      rfl rfl rfl (by decide) (by decide)).2.2.1
    "api-key" 1 "activation failed" rfl (by decide) rfl (by decide))

/-! Claim C3: output and exit-code discipline of the main entry point. -/

/-- C3 counterexample: with a recognized command but a client whose
    construction fails (here the missing instance url, and likewise any
    credential or auth failure raised during construction), main prints a
    JSON object without a success key and exits 1, not 0. -/
theorem c3_counterexample :
    main_model ["superbob.cli", "list"]
      (.error "WXO_INSTANCE environment variable must be set") =
      ⟨[.jsonError "WXO_INSTANCE environment variable must be set"], 1⟩ := by
  rfl

/-- C3 amended: a dispatched operation always prints exactly one JSON
    object and exits 0, even when its payload carries success false; but a
    failure raised while constructing the client (missing instance url,
    credential or auth failure) prints a JSON object with only an error
    key and exits 1, a malformed timeout flag prints the same error-only
    JSON object and exits 1, and the trigger and status usage errors print
    plain text and exit 1. -/
theorem c3_cli_output (argv : List String) :
    (∀ ops : ClientOps, 2 ≤ argv.length → argv.getD 1 "" = "list" →
      main_model argv (.ok ops) =
        ⟨[.jsonList (WXOAgentTrigger.list_agents ops.listReply)], 0⟩) ∧
    (∀ (ops : ClientOps) (timeout : Int), 4 ≤ argv.length →
      argv.getD 1 "" = "trigger" → parseTimeoutArgs argv 120 = .ok timeout →
      main_model argv (.ok ops) =
        ⟨[.jsonTrigger (WXOAgentTrigger.trigger_agent (argv.getD 2 "")
            (argv.getD 3 "") (¬ argv.contains "--no-wait") timeout
            ops.listReply ops.compReply ops.runReply)], 0⟩) ∧
    (∀ ops : ClientOps, 3 ≤ argv.length → argv.getD 1 "" = "status" →
      main_model argv (.ok ops) =
        ⟨[.jsonStatus (WXOAgentTrigger.get_run_status (argv.getD 2 "")
            ops.statusReply)], 0⟩) ∧
    (∀ e : String, 2 ≤ argv.length →
      main_model argv (.error e) = ⟨[.jsonError e], 1⟩) ∧
    (∀ ops : ClientOps, 2 ≤ argv.length → argv.length < 4 →
      argv.getD 1 "" = "trigger" →
      main_model argv (.ok ops) =
        ⟨[.usage "Error: trigger requires agent_name and message"], 1⟩) ∧
    (∀ (ops : ClientOps) (e : String), 4 ≤ argv.length →
      argv.getD 1 "" = "trigger" → parseTimeoutArgs argv 120 = .error e →
      main_model argv (.ok ops) = ⟨[.jsonError e], 1⟩) ∧
    (∀ ops : ClientOps, 2 ≤ argv.length → argv.length < 3 →
      argv.getD 1 "" = "status" →
      main_model argv (.ok ops) =
        ⟨[.usage "Error: status requires run_id"], 1⟩) := by
  refine ⟨fun ops h2 hcmd => ?_, fun ops timeout h4 hcmd hto => ?_,
    fun ops h3 hcmd => ?_, fun e h2 => ?_, fun ops h2 h4 hcmd => ?_,
    fun ops e h4 hcmd hto => ?_, fun ops h2 h3 hcmd => ?_⟩
  · have hn : ¬ (argv.length < 2) := by omega
    have hcmd2 : argv[1]?.getD "" = "list" := by simpa using hcmd
    simp [main_model, hn, hcmd2]
  · have hn : ¬ (argv.length < 2) := by omega
    have hn4 : ¬ (argv.length < 4) := by omega
    have hcmd2 : argv[1]?.getD "" = "trigger" := by simpa using hcmd
    simp [main_model, hn, hn4, hcmd2, hto]
  · have hn : ¬ (argv.length < 2) := by omega
    have hn3 : ¬ (argv.length < 3) := by omega
    have hcmd2 : argv[1]?.getD "" = "status" := by simpa using hcmd
    simp [main_model, hn, hn3, hcmd2]
  · have hn : ¬ (argv.length < 2) := by omega
    simp [main_model, hn]
  · have hn : ¬ (argv.length < 2) := by omega
    have hcmd2 : argv[1]?.getD "" = "trigger" := by simpa using hcmd
    simp [main_model, hn, h4, hcmd2]
  · have hn : ¬ (argv.length < 2) := by omega
    have hn4 : ¬ (argv.length < 4) := by omega
    have hcmd2 : argv[1]?.getD "" = "trigger" := by simpa using hcmd
    simp [main_model, hn, hn4, hcmd2, hto]
  · have hn : ¬ (argv.length < 2) := by omega
    have hcmd2 : argv[1]?.getD "" = "status" := by simpa using hcmd
    simp [main_model, hn, h3, hcmd2]

/-- Witness for C3 amended: a concrete trigger invocation whose
    completions endpoint replies 500 still prints one JSON object and
    exits 0, a concrete construction failure exits 1, and a concrete
    malformed timeout flag prints the error-only JSON object and
    exits 1. -/
theorem c3_cli_output_witness :
    (main_model ["superbob.cli", "trigger", "Bob", "hi"]
      (.ok ⟨⟨200, "OK", "u", "", some [⟨some "Bob", some "id-1", none⟩]⟩,
        ⟨500, "Server Error", "u", "boom", none⟩,
        ⟨200, "OK", "u", "", none⟩, ⟨200, "OK", "u", "", none⟩⟩) =
      ⟨[.jsonTrigger (WXOAgentTrigger.trigger_agent "Bob" "hi" true 120
        ⟨200, "OK", "u", "", some [⟨some "Bob", some "id-1", none⟩]⟩
        ⟨500, "Server Error", "u", "boom", none⟩
        ⟨200, "OK", "u", "", none⟩)], 0⟩) ∧
    (main_model ["superbob.cli", "status", "r1"]
      (.error "No credentials found") =
        ⟨[.jsonError "No credentials found"], 1⟩) ∧
    (main_model ["superbob.cli", "trigger", "Bob", "hi", "--timeout=abc"]
      (.ok ⟨⟨200, "OK", "u", "", none⟩, ⟨200, "OK", "u", "", none⟩,
        ⟨200, "OK", "u", "", none⟩, ⟨200, "OK", "u", "", none⟩⟩) =
      ⟨[.jsonError
        "invalid literal for int() with base 10: \x27abc\x27"], 1⟩) := by
  refine ⟨?_, ?_, ?_⟩
  · have h := (c3_cli_output ["superbob.cli", "trigger", "Bob", "hi"]).2.1
      ⟨⟨200, "OK", "u", "", some [⟨some "Bob", some "id-1", none⟩]⟩,
        ⟨500, "Server Error", "u", "boom", none⟩,
        ⟨200, "OK", "u", "", none⟩, ⟨200, "OK", "u", "", none⟩⟩
      120 (by decide) rfl rfl
    simpa using h
  · exact (c3_cli_output ["superbob.cli", "status", "r1"]).2.2.2.1
      "No credentials found" (by decide)
  · exact (c3_cli_output
      ["superbob.cli", "trigger", "Bob", "hi", "--timeout=abc"]).2.2.2.2.2.1
      ⟨⟨200, "OK", "u", "", none⟩, ⟨200, "OK", "u", "", none⟩,
        ⟨200, "OK", "u", "", none⟩, ⟨200, "OK", "u", "", none⟩⟩
      "invalid literal for int() with base 10: \x27abc\x27"
      (by decide) rfl rfl

/-! Claim C1: the success flag against the result variants. -/

/-- The timeout error message of the polling loop is never empty. -/
theorem wxo_timeout_error_ne_empty (timeout : Int) :
    ("Agent did not complete within " ++ toString timeout ++ " seconds") ≠ "" :=
  append_ne_empty_right _ _ (by decide)

/-- Success flag, variant, and error of every list_agents result. -/
theorem list_agents_invariant (r : HttpResp (List WXOAgentTrigger.AgentEntry)) :
    ((WXOAgentTrigger.list_agents r).success = true ↔
      ((WXOAgentTrigger.list_agents r).specVariant = .Completed ∨
       (WXOAgentTrigger.list_agents r).specVariant = .Started)) ∧
    ((WXOAgentTrigger.list_agents r).success = false →
      ∃ e, (WXOAgentTrigger.list_agents r).error = some e ∧ e ≠ "") := by
  unfold WXOAgentTrigger.list_agents
  split
  · exact ⟨by simp [WXOAgentTrigger.ListResult.specVariant],
      fun _ => ⟨_, rfl, httpErrorStr_ne_empty _ _ _⟩⟩
  · split
    · exact ⟨by simp [WXOAgentTrigger.ListResult.specVariant],
        fun _ => ⟨_, rfl, jsonDecodeErrorStr_ne_empty⟩⟩
    · exact ⟨by simp [WXOAgentTrigger.ListResult.specVariant],
        fun h => by simp at h⟩

/-- Success flag, variant, and error of every _trigger_sync result. -/
theorem trigger_sync_invariant (agent_id agent_name user_input : String)
    (timeout : Int) (r : HttpResp WXOAgentTrigger.CompletionsBody) :
    ((WXOAgentTrigger.trigger_sync agent_id agent_name user_input timeout
        r).success = true ↔
      ((WXOAgentTrigger.trigger_sync agent_id agent_name user_input timeout
          r).specVariant = .Completed ∨
       (WXOAgentTrigger.trigger_sync agent_id agent_name user_input timeout
          r).specVariant = .Started)) ∧
    ((WXOAgentTrigger.trigger_sync agent_id agent_name user_input timeout
        r).success = false →
      ∃ e, (WXOAgentTrigger.trigger_sync agent_id agent_name user_input timeout
          r).error = some e ∧ e ≠ "") := by
  unfold WXOAgentTrigger.trigger_sync
  split
  · exact ⟨by simp [WXOAgentTrigger.SyncResult.specVariant],
      fun _ => ⟨_, rfl, httpErrorStr_ne_empty _ _ _⟩⟩
  · split
    · exact ⟨by simp [WXOAgentTrigger.SyncResult.specVariant],
        fun _ => ⟨_, rfl, jsonDecodeErrorStr_ne_empty⟩⟩
    · split
      · exact ⟨by simp [WXOAgentTrigger.SyncResult.specVariant],
          fun h => by simp at h⟩
      · next e heq =>
        exact ⟨by simp [WXOAgentTrigger.SyncResult.specVariant],
          fun _ => ⟨e, rfl, extractReply_error_ne_empty _ e heq⟩⟩

/-- Success flag, variant, and error of every _trigger_async result. -/
theorem trigger_async_invariant (agent_id agent_name user_input : String)
    (r : HttpResp WXOAgentTrigger.RunBody) :
    ((WXOAgentTrigger.trigger_async agent_id agent_name user_input r).success
        = true ↔
      ((WXOAgentTrigger.trigger_async agent_id agent_name user_input
          r).specVariant = .Completed ∨
       (WXOAgentTrigger.trigger_async agent_id agent_name user_input
          r).specVariant = .Started)) ∧
    ((WXOAgentTrigger.trigger_async agent_id agent_name user_input r).success
        = false →
      ∃ e, (WXOAgentTrigger.trigger_async agent_id agent_name user_input r).error
          = some e ∧ e ≠ "") := by
  unfold WXOAgentTrigger.trigger_async
  split
  · exact ⟨by simp [WXOAgentTrigger.AsyncResult.specVariant],
      fun _ => ⟨_, rfl, httpErrorStr_ne_empty _ _ _⟩⟩
  · split
    · exact ⟨by simp [WXOAgentTrigger.AsyncResult.specVariant],
        fun _ => ⟨_, rfl, jsonDecodeErrorStr_ne_empty⟩⟩
    · exact ⟨by simp [WXOAgentTrigger.AsyncResult.specVariant],
        fun h => by simp at h⟩

/-- Success flag, variant, and error of every get_run_status result. -/
theorem get_run_status_invariant (β : Type) (run_id : String) (r : HttpResp β) :
    ((WXOAgentTrigger.get_run_status run_id r).success = true ↔
      ((WXOAgentTrigger.get_run_status run_id r).specVariant = .Completed ∨
       (WXOAgentTrigger.get_run_status run_id r).specVariant = .Started)) ∧
    ((WXOAgentTrigger.get_run_status run_id r).success = false →
      ∃ e, (WXOAgentTrigger.get_run_status run_id r).error = some e ∧ e ≠ "") := by
  unfold WXOAgentTrigger.get_run_status
  split
  · exact ⟨by simp [WXOAgentTrigger.StatusResult.specVariant],
      fun _ => ⟨_, rfl, httpErrorStr_ne_empty _ _ _⟩⟩
  · split
    · exact ⟨by simp [WXOAgentTrigger.StatusResult.specVariant],
        fun _ => ⟨_, rfl, jsonDecodeErrorStr_ne_empty⟩⟩
    · exact ⟨by simp [WXOAgentTrigger.StatusResult.specVariant],
        fun h => by simp at h⟩

/-- Success flag, variant, and error of every trigger_agent result. -/
theorem trigger_agent_invariant (agent_name user_input : String) (wait : Bool)
    (timeout : Int) (lr : HttpResp (List WXOAgentTrigger.AgentEntry))
    (cr : HttpResp WXOAgentTrigger.CompletionsBody)
    (rr : HttpResp WXOAgentTrigger.RunBody) :
    ((WXOAgentTrigger.trigger_agent agent_name user_input wait timeout lr cr
        rr).success = true ↔
      ((WXOAgentTrigger.trigger_agent agent_name user_input wait timeout lr cr
          rr).specVariant = .Completed ∨
       (WXOAgentTrigger.trigger_agent agent_name user_input wait timeout lr cr
          rr).specVariant = .Started)) ∧
    ((WXOAgentTrigger.trigger_agent agent_name user_input wait timeout lr cr
        rr).success = false →
      ∃ e, (WXOAgentTrigger.trigger_agent agent_name user_input wait timeout lr
          cr rr).error = some e ∧ e ≠ "") := by
  unfold WXOAgentTrigger.trigger_agent
  cases hres : (WXOAgentTrigger.resolve_agent_id agent_name lr).1 with
  | error e =>
    exact ⟨by simp [WXOAgentTrigger.TriggerOut.success,
        WXOAgentTrigger.TriggerOut.specVariant],
      fun _ => ⟨_, rfl, resolveFailStr_ne_empty e⟩⟩
  | ok agent_id =>
    cases wait with
    | true =>
      simpa [WXOAgentTrigger.TriggerOut.success, WXOAgentTrigger.TriggerOut.error,
        WXOAgentTrigger.TriggerOut.specVariant] using
        trigger_sync_invariant agent_id agent_name user_input timeout cr
    | false =>
      simpa [WXOAgentTrigger.TriggerOut.success, WXOAgentTrigger.TriggerOut.error,
        WXOAgentTrigger.TriggerOut.specVariant] using
        trigger_async_invariant agent_id agent_name user_input rr

/-- Success flag, variant, and error of every polling-loop result: the
    error string of a failure is empty only when the run-status reply
    itself carried an empty error text for a failed run. -/
theorem pollLoop_invariant (statusAt : Nat → WxoTool.WxoReply)
    (agent_name : String) (run_id : Option String) (timeout : Int) :
    ∀ (k : Nat), ∀ (n : Nat), ∀ (elapsed : Nat),
    (timeout - (elapsed : Int)).toNat ≤ k →
    (((WxoTool.pollLoop statusAt agent_name run_id timeout n elapsed).1.success
        = true ↔
      ((WxoTool.pollLoop statusAt agent_name run_id timeout n
          elapsed).1.specVariant = .Completed ∨
       (WxoTool.pollLoop statusAt agent_name run_id timeout n
          elapsed).1.specVariant = .Started)) ∧
     ((WxoTool.pollLoop statusAt agent_name run_id timeout n elapsed).1.success
        = false →
      ∃ e, (WxoTool.pollLoop statusAt agent_name run_id timeout n
          elapsed).1.error = some e ∧
        (e ≠ "" ∨ (WxoTool.pollLoop statusAt agent_name run_id timeout n
          elapsed).1.status = some "failed"))) := by
  intro k
  induction k with
  | zero =>
    intro n elapsed hle
    have hnlt : ¬ ((elapsed : Int) < timeout) := by omega
    rw [WxoTool.pollLoop]
    simp only [hnlt, dif_neg, not_false_iff]
    exact ⟨by simp [WxoTool.WxoResult.specVariant],
      fun _ => ⟨_, rfl, Or.inl (wxo_timeout_error_ne_empty timeout)⟩⟩
  | succ k ih =>
    intro n elapsed hle
    rw [WxoTool.pollLoop]
    by_cases hlt : (elapsed : Int) < timeout
    · simp only [hlt, dif_pos]
      by_cases hc : (statusAt n).status = some "completed"
      · simp only [hc, if_true]
        exact ⟨by simp [WxoTool.WxoResult.specVariant], fun h => by simp at h⟩
      · by_cases hf : (statusAt n).status = some "failed"
        · simp only [hc, if_false, hf, if_true]
          exact ⟨by simp [WxoTool.WxoResult.specVariant, hc],
            fun _ => ⟨_, rfl, Or.inr rfl⟩⟩
        · simp only [hc, hf, if_false]
          exact ih (n + 1) (elapsed + 2) (by push_cast; omega)
    · simp only [hlt, dif_neg, not_false_iff]
      exact ⟨by simp [WxoTool.WxoResult.specVariant],
        fun _ => ⟨_, rfl, Or.inl (wxo_timeout_error_ne_empty timeout)⟩⟩

/-- Success flag, variant, and error of every trigger_wxo_agent result. -/
theorem wxo_trigger_invariant (agent_name user_input : String) (wait : Bool)
    (timeout : Int) (create : WxoTool.CreateRunOutcome)
    (statusAt : Nat → WxoTool.WxoReply) :
    (((WxoTool.trigger_wxo_agent agent_name user_input wait timeout create
        statusAt).1.success = true ↔
      ((WxoTool.trigger_wxo_agent agent_name user_input wait timeout create
          statusAt).1.specVariant = .Completed ∨
       (WxoTool.trigger_wxo_agent agent_name user_input wait timeout create
          statusAt).1.specVariant = .Started)) ∧
     ((WxoTool.trigger_wxo_agent agent_name user_input wait timeout create
        statusAt).1.success = false →
      ∃ e, (WxoTool.trigger_wxo_agent agent_name user_input wait timeout create
          statusAt).1.error = some e ∧
        (e ≠ "" ∨ (WxoTool.trigger_wxo_agent agent_name user_input wait timeout
          create statusAt).1.status = some "failed"))) := by
  cases create with
  | raisesExc msg =>
    exact ⟨by simp [WxoTool.trigger_wxo_agent, WxoTool.WxoResult.specVariant],
      fun _ => ⟨_, rfl, Or.inl (append_ne_empty_left _ _ (by decide))⟩⟩
  | ok run_data =>
    cases wait with
    | false =>
      exact ⟨by simp [WxoTool.trigger_wxo_agent, WxoTool.WxoResult.specVariant],
        fun h => by simp [WxoTool.trigger_wxo_agent] at h⟩
    | true =>
      simpa [WxoTool.trigger_wxo_agent] using
        pollLoop_invariant statusAt agent_name run_data.id timeout
          ((timeout - ((0 : Nat) : Int)).toNat) 0 0 le_rfl

/-- C1 counterexample: a run-status reply reporting a failed run with an
    empty platform error text yields a result with success false whose
    error description is the empty string. -/
theorem c1_counterexample :
    (WxoTool.trigger_wxo_agent "SuperBob_2079Hm" "hi" true 60 (.ok ⟨some "r1"⟩)
        (fun _ => ⟨some "failed", none, some ""⟩)).1.success = false ∧
    (WxoTool.trigger_wxo_agent "SuperBob_2079Hm" "hi" true 60 (.ok ⟨some "r1"⟩)
        (fun _ => ⟨some "failed", none, some ""⟩)).1.error = some "" := by
  have hres : WxoTool.trigger_wxo_agent "SuperBob_2079Hm" "hi" true 60
      (.ok ⟨some "r1"⟩) (fun _ => ⟨some "failed", none, some ""⟩) =
      ({ success := false, agent_name := some "SuperBob_2079Hm",
         run_id := some (some "r1"), status := some "failed", response := none,
         full_output := none, message := none, error := some "" }, 1) := by
    simp only [WxoTool.trigger_wxo_agent]
    rw [WxoTool.pollLoop]
    simp
  rw [hres]
  exact ⟨rfl, rfl⟩

/-- C1 amended: for every public operation and every reply the platform
    may return, the success flag is true exactly when the outcome is the
    Completed or Started variant, and every result with success false
    carries an error description string, which is non-empty except that a
    failed-run status reply has its platform error text passed through
    verbatim, so it may be empty exactly when the platform sent an empty
    one. -/
theorem c1_success_iff :
    (∀ r : HttpResp (List WXOAgentTrigger.AgentEntry),
      ((WXOAgentTrigger.list_agents r).success = true ↔
        ((WXOAgentTrigger.list_agents r).specVariant = .Completed ∨
         (WXOAgentTrigger.list_agents r).specVariant = .Started)) ∧
      ((WXOAgentTrigger.list_agents r).success = false →
        ∃ e, (WXOAgentTrigger.list_agents r).error = some e ∧ e ≠ "")) ∧
    (∀ (agent_name user_input : String) (wait : Bool) (timeout : Int)
        (lr : HttpResp (List WXOAgentTrigger.AgentEntry))
        (cr : HttpResp WXOAgentTrigger.CompletionsBody)
        (rr : HttpResp WXOAgentTrigger.RunBody),
      ((WXOAgentTrigger.trigger_agent agent_name user_input wait timeout lr cr
          rr).success = true ↔
        ((WXOAgentTrigger.trigger_agent agent_name user_input wait timeout lr cr
            rr).specVariant = .Completed ∨
         (WXOAgentTrigger.trigger_agent agent_name user_input wait timeout lr cr
            rr).specVariant = .Started)) ∧
      ((WXOAgentTrigger.trigger_agent agent_name user_input wait timeout lr cr
          rr).success = false →
        ∃ e, (WXOAgentTrigger.trigger_agent agent_name user_input wait timeout
            lr cr rr).error = some e ∧ e ≠ "")) ∧
    (∀ (β : Type) (run_id : String) (r : HttpResp β),
      ((WXOAgentTrigger.get_run_status run_id r).success = true ↔
        ((WXOAgentTrigger.get_run_status run_id r).specVariant = .Completed ∨
         (WXOAgentTrigger.get_run_status run_id r).specVariant = .Started)) ∧
      ((WXOAgentTrigger.get_run_status run_id r).success = false →
        ∃ e, (WXOAgentTrigger.get_run_status run_id r).error = some e ∧ e ≠ "")) ∧
    (∀ (agent_name user_input : String) (wait : Bool) (timeout : Int)
        (create : WxoTool.CreateRunOutcome) (statusAt : Nat → WxoTool.WxoReply),
      ((WxoTool.trigger_wxo_agent agent_name user_input wait timeout create
          statusAt).1.success = true ↔
        ((WxoTool.trigger_wxo_agent agent_name user_input wait timeout create
            statusAt).1.specVariant = .Completed ∨
         (WxoTool.trigger_wxo_agent agent_name user_input wait timeout create
            statusAt).1.specVariant = .Started)) ∧
      ((WxoTool.trigger_wxo_agent agent_name user_input wait timeout create
          statusAt).1.success = false →
        ∃ e, (WxoTool.trigger_wxo_agent agent_name user_input wait timeout
            create statusAt).1.error = some e ∧
          (e ≠ "" ∨ (WxoTool.trigger_wxo_agent agent_name user_input wait
            timeout create statusAt).1.status = some "failed"))) :=
  ⟨fun r => list_agents_invariant r,
   fun agent_name user_input wait timeout lr cr rr =>
     trigger_agent_invariant agent_name user_input wait timeout lr cr rr,
   fun β run_id r => get_run_status_invariant β run_id r,
   fun agent_name user_input wait timeout create statusAt =>
     wxo_trigger_invariant agent_name user_input wait timeout create statusAt⟩

/-- Witness for C1 amended at concrete replies: a 401 list reply has a
    non-empty error, and a started asynchronous trigger has success
    true. -/
theorem c1_success_iff_witness :
    (∃ e, (WXOAgentTrigger.list_agents
        ⟨401, "Unauthorized", "u", "denied", none⟩).error = some e ∧ e ≠ "") ∧
    (WXOAgentTrigger.trigger_agent "Bob" "hi" false 120
        ⟨200, "OK", "u", "", some [⟨some "Bob", some "id-1", none⟩]⟩
        ⟨200, "OK", "u", "", none⟩
        ⟨200, "OK", "u", "", some ⟨some "t1", some "r1", none, none⟩⟩).success
      = true :=
  ⟨(c1_success_iff.1 ⟨401, "Unauthorized", "u", "denied", none⟩).2 rfl,
   (c1_success_iff.2.1 "Bob" "hi" false 120
      ⟨200, "OK", "u", "", some [⟨some "Bob", some "id-1", none⟩]⟩
      ⟨200, "OK", "u", "", none⟩
      ⟨200, "OK", "u", "", some ⟨some "t1", some "r1", none, none⟩⟩).1.mpr
    (Or.inr (by rfl))⟩
